import Mathlib

/-!
Verification of the auth + project/file storage core of the server
repository.  The definitions below are a shallow embedding of the Python
source (`auth.py`, `fastapi_main.py`): pure validation helpers become Lean
functions, the JWT codec is modelled as a signed record, and the
filesystem-backed stores become explicit state passed through each
operation.  External library calls (bcrypt hashing, the HMAC signature,
the Gemini key probe) are modelled opaquely by injective encodings or
boolean oracles, which is all the claims depend on.
-/

namespace Server

/-- HTTP error surfaced by a route: status code plus detail string,
mirroring `HTTPException(status_code=..., detail=...)`. -/
structure HTTPError where
  status : Nat
  detail : String
deriving Repr, DecidableEq

/-! ### Validation helpers (auth.py)

`validate_username` embeds `re.match(r'^[a-zA-Z0-9_]{6,20}$', u)` and
`validate_password` embeds
`re.match(r'^(?=.*[a-z])(?=.*[A-Z])(?=.*\d)(?=.*[@$!%*?&])[A-Za-z\d@$!%*?&]{8,}$', p)`.
The lookahead groups become "contains a character of the class"
conditions and the body becomes "every character is in the class, with
the length bound".  Python's `$` also matches just before one trailing
newline, which `reDollarMatch` reproduces; `\d` is modelled as the ASCII
digits. -/

def isLowerCh (c : Char) : Bool := 'a' ≤ c && c ≤ 'z'

def isUpperCh (c : Char) : Bool := 'A' ≤ c && c ≤ 'Z'

def isDigitCh (c : Char) : Bool := '0' ≤ c && c ≤ '9'

/-- Membership in the regex class `[@$!%*?&]`. -/
def isSpecialCh (c : Char) : Bool :=
  c == '@' || c == '$' || c == '!' || c == '%' || c == '*' || c == '?' || c == '&'

/-- Membership in the regex class `[A-Za-z\d@$!%*?&]`. -/
def pwdAllowedCh (c : Char) : Bool :=
  isLowerCh c || isUpperCh c || isDigitCh c || isSpecialCh c

/-- The password regex applied to a whole line (no trailing newline). -/
def pwdBody (s : List Char) : Bool :=
  s.any isLowerCh && s.any isUpperCh && s.any isDigitCh && s.any isSpecialCh
    && s.all pwdAllowedCh && decide (8 ≤ s.length)

/-- Python `re.match` with a `$`-anchored pattern: the body must cover the
whole string, or the whole string minus one final newline. -/
def reDollarMatch (body : List Char → Bool) (s : String) : Bool :=
  body s.data || (s.data.getLast? == some '\n' && body s.data.dropLast)

def validate_password (p : String) : Bool := reDollarMatch pwdBody p

/-- Membership in the regex class `[a-zA-Z0-9_]`. -/
def unameCh (c : Char) : Bool :=
  isLowerCh c || isUpperCh c || isDigitCh c || c == '_'

def unameBody (s : List Char) : Bool :=
  s.all unameCh && decide (6 ≤ s.length) && decide (s.length ≤ 20)

def validate_username (u : String) : Bool := reDollarMatch unameBody u

/-- Membership in the regex class `[a-zA-Z0-9_-]` used for project names. -/
def projNameCh (c : Char) : Bool := unameCh c || c == '-'

def projNameBody (s : List Char) : Bool :=
  s.all projNameCh && decide (1 ≤ s.length)

/-- Embeds `re.match(r'^[a-zA-Z0-9_-]+$', project_name)` from
`create_project`. -/
def validProjectName (p : String) : Bool := reDollarMatch projNameBody p

/-! ### Password hashing (auth.py)

`get_password_hash` / `verify_password` wrap passlib's bcrypt context;
the model keeps the library's contract (verifying a password against the
stored hash of a password succeeds exactly on equality) with an opaque
injective encoding in place of the real digest. -/

def get_password_hash (password : String) : String := "bcrypt$" ++ password

def verify_password (plain hashed : String) : Bool :=
  get_password_hash plain == hashed

/-! ### JWT codec (auth.py)

A token is the pair of its claims and a signature over them, exactly the
shape of a JWT (the payload travels in the clear; the signature
authenticates it).  `mkSig` stands in for HMAC-SHA256 with the server
secret.  `jwtDecode` embeds `jose.jwt.decode`: signature check first,
then the expiry check `exp < now` (python-jose raises
`ExpiredSignatureError`, a subclass of `JWTError`, when the `exp` claim
is strictly before the current time). -/

structure JwtPayload where
  sub : Option String
  exp : Int
deriving Repr, DecidableEq

structure Jwt where
  payload : JwtPayload
  sig : String
deriving Repr, DecidableEq

def mkSig (secret : String) (p : JwtPayload) : String :=
  "HS256:" ++ secret ++ ":" ++ p.sub.getD "" ++ ":" ++ toString p.exp

inductive JwtError
  | invalidSignature
  | expired
deriving Repr, DecidableEq

def jwtEncode (secret : String) (p : JwtPayload) : Jwt :=
  ⟨p, mkSig secret p⟩

def jwtDecode (secret : String) (now : Int) (t : Jwt) : Except JwtError JwtPayload :=
  if t.sig ≠ mkSig secret t.payload then .error .invalidSignature
  else if t.payload.exp < now then .error .expired
  else .ok t.payload

/-- Token lifetime used by the login route (`ACCESS_TOKEN_EXPIRE_MINUTES = 30`). -/
def ACCESS_TOKEN_EXPIRE_MINUTES : Int := 30

/-- Embeds `create_access_token(data={"sub": subject}, expires_delta)`:
the encoded claims are the subject plus `exp = now + expires_delta`
(default 15 minutes). -/
def create_access_token (secret : String) (subject : String) (now : Int)
    (expires_delta : Option Int) : Jwt :=
  jwtEncode secret ⟨some subject, now + expires_delta.getD 15⟩

/-- Embeds `get_username_from_token`: any `JWTError` (bad signature or
expiry) becomes the error "Invalid token"; a decoded payload without a
`sub` claim becomes "Username not found in token". -/
def get_username_from_token (secret : String) (now : Int) (t : Jwt) :
    Except String String :=
  match jwtDecode secret now t with
  | .error _ => .error "Invalid token"
  | .ok p =>
    match p.sub with
    | none => .error "Username not found in token"
    | some u => .ok u

/-! ### User records and the access gate (auth.py)

The credentials store is `users/<username>/credentials.json`; it is
modelled as an association list from username to the stored record.
Timestamps are carried as their ISO strings. -/

structure UserInDB where
  username : String
  hashed_password : String
  gemini_api_key : String
  disabled : Bool
  created_at : String
  last_login : Option String
deriving Repr, DecidableEq

abbrev UsersStore := List (String × UserInDB)

/-- Embeds `get_user`: look the username up in the store (reading
`users/<u>/credentials.json`; absent file gives `None`). -/
def get_user (db : UsersStore) (username : String) : Option UserInDB :=
  (db.find? (fun e => e.1 == username)).map (·.2)

/-- Embeds `user_exists`: the credentials record is present. -/
def user_exists (db : UsersStore) (username : String) : Bool :=
  (get_user db username).isSome

/-- The single `HTTPException` reused for every token-validation failure
in `get_current_user`. -/
def credentials_exception : HTTPError :=
  ⟨401, "Could not validate credentials"⟩

/-- Embeds `get_current_user`: decode the bearer token (any `JWTError`
maps to `credentials_exception`), require a `sub` claim, then look the
user up; a missing user maps to the same exception. -/
def get_current_user (db : UsersStore) (secret : String) (now : Int)
    (token : Jwt) : Except HTTPError UserInDB :=
  match jwtDecode secret now token with
  | .error _ => .error credentials_exception
  | .ok payload =>
    match payload.sub with
    | none => .error credentials_exception
    | some username =>
      match get_user db username with
      | none => .error credentials_exception
      | some user => .ok user

/-- Embeds `get_current_active_user`: a disabled account is rejected with
status 400 and detail "Inactive user". -/
def get_current_active_user (db : UsersStore) (secret : String) (now : Int)
    (token : Jwt) : Except HTTPError UserInDB :=
  match get_current_user db secret now token with
  | .error e => .error e
  | .ok u => if u.disabled then .error ⟨400, "Inactive user"⟩ else .ok u

/-- Embeds the `POST /token` route `login_for_access_token`.  `keyValid`
is the oracle for `validate_gemini_api_key` (the external Gemini probe);
`newKey` is the optional key carried in the scopes field (`""` when
absent).  Returns the route's result together with the store.  In the
valid-new-key branch the source calls `update_user_api_key(user.username,
new_api_key)` — but the only function of that name is the async route
handler, so the call merely builds a coroutine with misbound arguments
and never awaits it: nothing runs and no key is persisted, so the store
is returned unchanged on every branch. -/
def login_for_access_token (db : UsersStore) (secret : String) (now : Int)
    (keyValid : String → Bool) (username password newKey : String) :
    Except HTTPError Jwt × UsersStore :=
  match get_user db username with
  | none => (.error ⟨401, "Username does not exist"⟩, db)
  | some user =>
    if ¬ verify_password password user.hashed_password then
      (.error ⟨401, "Incorrect password"⟩, db)
    else if newKey == "" then
      if ¬ keyValid user.gemini_api_key then
        (.error ⟨400, "Saved Gemini API key is no longer valid"⟩, db)
      else
        (.ok (create_access_token secret user.username now
          (some ACCESS_TOKEN_EXPIRE_MINUTES)), db)
    else if keyValid newKey then
      (.ok (create_access_token secret user.username now
        (some ACCESS_TOKEN_EXPIRE_MINUTES)), db)
    else
      (.error ⟨400, "Provided Gemini API key is not valid"⟩, db)

/-! ### Project/file namespace (fastapi_main.py)

A project directory `users/<u>/projects/<p>` holds `main/`, `temp/` and
`project_info.json`.  Each folder is an association list from filename to
content, wrapped in `Option` so that an absent directory is
distinguishable from an empty one (the routes test `os.path.exists` on
the folders); `info` is the `created_at` string when
`project_info.json` exists.  A user's namespace is the association list
of that user's project directories. -/

structure Project where
  main : Option (List (String × String))
  temp : Option (List (String × String))
  info : Option String
deriving Repr, DecidableEq

abbrev UserFS := List (String × Project)

def lookupProj (fs : UserFS) (p : String) : Option Project :=
  (fs.find? (fun e => e.1 == p)).map (·.2)

def lookupFile (l : List (String × String)) (f : String) : Option String :=
  (l.find? (fun e => e.1 == f)).map (·.2)

/-- Overwriting write of `f` in a folder (`open(..., "wb+")` semantics:
any previous file of that name is replaced). -/
def setFile (l : List (String × String)) (f c : String) : List (String × String) :=
  l.filter (fun e => e.1 != f) ++ [(f, c)]

/-- Removal of `f` from a folder (`os.remove`). -/
def removeFile (l : List (String × String)) (f : String) : List (String × String) :=
  l.filter (fun e => e.1 != f)

/-- Replace the directory of project `p` in the namespace. -/
def setProj (fs : UserFS) (p : String) (pr : Project) : UserFS :=
  fs.map (fun e => if e.1 == p then (p, pr) else e)

/-- Embeds `GET /projects/{project_name}/files` (`list_files`): 404 when
the project directory is absent; otherwise each folder is listed
independently, an absent folder giving the empty list. -/
def list_files (fs : UserFS) (p : String) :
    Except HTTPError (List String × List String) :=
  match lookupProj fs p with
  | none => .error ⟨404, "Project not found"⟩
  | some pr => .ok ((pr.main.getD []).map (·.1), (pr.temp.getD []).map (·.1))

/-- Embeds `POST /upload/{project_name}` (`upload_file`): 404 when the
project is absent; otherwise `temp/` is created if missing
(`os.makedirs(..., exist_ok=True)`) and the content written to
`temp/<f>`, overwriting any previous file. -/
def upload_file (fs : UserFS) (p f c : String) :
    Except HTTPError String × UserFS :=
  match lookupProj fs p with
  | none => (.error ⟨404, "Project not found"⟩, fs)
  | some pr =>
    (.ok "uploaded to temp folder",
      setProj fs p { pr with temp := some (setFile (pr.temp.getD []) f c) })

/-- Embeds `GET /projects/{project_name}/files/{file_name}`
(`get_file_content`): check `main/<f>` first, then `temp/<f>`, return the
content of the first that exists, else 404. -/
def get_file_content (fs : UserFS) (p f : String) : Except HTTPError String :=
  match lookupProj fs p with
  | none => .error ⟨404, "Project not found"⟩
  | some pr =>
    match lookupFile (pr.main.getD []) f with
    | some c => .ok c
    | none =>
      match lookupFile (pr.temp.getD []) f with
      | some c => .ok c
      | none => .error ⟨404, "File not found"⟩

/-- Embeds `DELETE /projects/{project_name}/files/{file_name}`
(`delete_file`): remove `main/<f>` if it exists, else `temp/<f>` if it
exists, else 404. -/
def delete_file (fs : UserFS) (p f : String) :
    Except HTTPError String × UserFS :=
  match lookupProj fs p with
  | none => (.error ⟨404, "Project not found"⟩, fs)
  | some pr =>
    if (lookupFile (pr.main.getD []) f).isSome then
      (.ok "deleted from main folder",
        setProj fs p { pr with main := some (removeFile (pr.main.getD []) f) })
    else if (lookupFile (pr.temp.getD []) f).isSome then
      (.ok "deleted from temp folder",
        setProj fs p { pr with temp := some (removeFile (pr.temp.getD []) f) })
    else
      (.error ⟨404, "File not found"⟩, fs)

/-- Embeds `POST /projects/{project_name}/files/{file_name}/move`
(`move_file`): 404 when the project is absent or `temp/<f>` does not
exist; `shutil.move` renames `temp/<f>` onto `main/<f>`, silently
replacing an existing regular file there.  When `main/` itself is absent
the rename raises and the route answers 500. -/
def move_file (fs : UserFS) (p f : String) :
    Except HTTPError String × UserFS :=
  match lookupProj fs p with
  | none => (.error ⟨404, "Project not found"⟩, fs)
  | some pr =>
    match lookupFile (pr.temp.getD []) f with
    | none => (.error ⟨404, "File not found in temp folder"⟩, fs)
    | some c =>
      match pr.main with
      | none => (.error ⟨500, "Error moving file"⟩, fs)
      | some m =>
        (.ok "moved from temp to main folder",
          setProj fs p { pr with main := some (setFile m f c),
                                 temp := some (removeFile (pr.temp.getD []) f) })

/-! ### Project creation with rollback (fastapi_main.py `create_project`) -/

/-- The four filesystem mutations of `create_project`, in order:
`os.makedirs(project_dir)`, `os.makedirs(main)`, `os.makedirs(temp)`,
writing `project_info.json`.  A mid-creation OS error is modelled as one
of these steps raising before it mutates anything. -/
inductive CPStep
  | mkProjectDir
  | mkMainDir
  | mkTempDir
  | writeInfo
deriving Repr, DecidableEq

def emptyProject : Project := ⟨none, none, none⟩

/-- Embeds `shutil.rmtree(project_dir, ignore_errors=True)`: every entry
of the project directory `p` disappears. -/
def rmtreeProj (fs : UserFS) (p : String) : UserFS :=
  fs.filter (fun e => e.1 != p)

/-- Embeds `POST /projects` (`create_project`): validate the name, 400 if
the directory already exists, then perform the four creation steps; if
the step `failAt` raises, the partially created tree is removed by
`rmtree` and a 500 is surfaced. -/
def create_project (fs : UserFS) (p ts : String) (failAt : Option CPStep) :
    Except HTTPError String × UserFS :=
  if ¬ validProjectName p then
    (.error ⟨400, "Invalid project name. Use only letters, numbers, underscores, and hyphens."⟩, fs)
  else if (lookupProj fs p).isSome then
    (.error ⟨400, "Project already exists"⟩, fs)
  else
    match failAt with
    | some .mkProjectDir =>
      (.error ⟨500, "Failed to create project"⟩, rmtreeProj fs p)
    | some .mkMainDir =>
      (.error ⟨500, "Failed to create project"⟩, rmtreeProj ((p, emptyProject) :: fs) p)
    | some .mkTempDir =>
      (.error ⟨500, "Failed to create project"⟩,
        rmtreeProj ((p, { emptyProject with main := some [] }) :: fs) p)
    | some .writeInfo =>
      (.error ⟨500, "Failed to create project"⟩,
        rmtreeProj ((p, { emptyProject with main := some [], temp := some [] }) :: fs) p)
    | none =>
      (.ok "Project created successfully with main and temp folders",
        (p, ⟨some [], some [], some ts⟩) :: fs)

/-! ### Registration (fastapi_main.py `register_new_user`)

Registration writes two things under `users/<username>/`: the `projects/`
directory and `credentials.json`.  An account therefore carries the
stored record together with its project namespace. -/

structure UserAccount where
  creds : UserInDB
  projects : UserFS
deriving Repr, DecidableEq

abbrev RegState := List (String × UserAccount)

def lookupAccount (st : RegState) (username : String) : Option UserAccount :=
  (st.find? (fun e => e.1 == username)).map (·.2)

/-- Embeds `POST /register` (`register_new_user`): username format check
(422), existence check (409), password format check (422), then step 4,
`if not await validate_gemini_api_key(...)`.  `validate_gemini_api_key`
is a plain synchronous function returning a bool, so the `await` raises
`TypeError` on every request that reaches step 4 — whatever the probe
answered (`keyValid` is computed by the call but never consulted) — and
the framework surfaces the unhandled exception as a 500.  The creation
code of step 5 is unreachable, so no branch mutates the store. -/
def register_new_user (st : RegState) (username password gemini_api_key : String)
    (keyValid : Bool) (now : String) : Except HTTPError String × RegState :=
  if ¬ validate_username username then
    (.error ⟨422, "Invalid username format"⟩, st)
  else if (lookupAccount st username).isSome then
    (.error ⟨409, "Username already exists"⟩, st)
  else if ¬ validate_password password then
    (.error ⟨422, "Invalid password format"⟩, st)
  else
    (.error ⟨500, "Internal Server Error"⟩, st)

/-! ### Project listing (fastapi_main.py `list_projects`)

The route walks `os.listdir` of the projects directory, keeps the
entries that are directories, reads `project_info.json` when present
(else reports `created_at = ""`), and returns the rows sorted by
`created_at` descending (`sorted(..., reverse=True)` on the ISO
strings). -/

/-- One entry of the projects directory as `os.listdir` sees it: a
subdirectory (carrying its `project_info.json` `created_at` when that
file exists) or a stray non-directory entry, skipped by the `isdir`
test. -/
inductive DirEntry
  | subdir (info : Option String)
  | plainFile
deriving Repr, DecidableEq

/-- The rows built by the loop body of `list_projects`, one per
subdirectory. -/
def projectRows (entries : List (String × DirEntry)) : List (String × String) :=
  entries.filterMap (fun e =>
    match e.2 with
    | .subdir (some ts) => some (e.1, ts)
    | .subdir none => some (e.1, "")
    | .plainFile => none)

/-- Descending order on the `created_at` field. -/
def createdAtDesc (a b : String × String) : Prop := b.2 ≤ a.2

instance : DecidableRel createdAtDesc := fun a b =>
  inferInstanceAs (Decidable (b.2 ≤ a.2))

instance : IsTotal (String × String) createdAtDesc :=
  ⟨fun a b => le_total b.2 a.2⟩

instance : IsTrans (String × String) createdAtDesc :=
  ⟨fun _ _ _ h1 h2 => le_trans h2 h1⟩

/-- Embeds `GET /projects` (`list_projects`): the rows sorted by
`created_at` descending. -/
def list_projects (entries : List (String × DirEntry)) : List (String × String) :=
  (projectRows entries).insertionSort createdAtDesc

/-! ### Path-level model of the file routes

The file routes build their target paths with `os.path.join` on raw
request strings and hand them straight to the OS, so path traversal has
to be analysed below the directory structure: a path is a list of
segments, `os.path.join` concatenates (resetting on an absolute second
operand), and the OS resolves `.` and `..` segments when the path is
used.  Paths are taken relative to the server's working directory, which
acts as the root (`USERS_DIRECTORY = "./users"`). -/

/-- Split a raw path string on `/`, dropping empty segments. -/
def splitSegsAux : List Char → List Char → List String
  | [], acc => [String.mk acc.reverse]
  | '/' :: rest, acc => String.mk acc.reverse :: splitSegsAux rest []
  | c :: rest, acc => splitSegsAux rest (c :: acc)

def splitPath (s : String) : List String :=
  (splitSegsAux s.data []).filter (fun x => x ≠ "")

/-- Embeds `os.path.join(base, s)`: an absolute right operand discards
the base. -/
def joinSeg (base : List String) (s : String) : List String :=
  if s.data.head? == some '/' then splitPath s else base ++ splitPath s

/-- Resolution of `.` and `..` segments as the OS performs it when the
path is opened: `..` pops the last real segment (staying at the root
when there is none). -/
def normAux : List String → List String → List String
  | stack, [] => stack.reverse
  | stack, "." :: rest => normAux stack rest
  | stack, ".." :: rest => normAux stack.tail rest
  | stack, seg :: rest => normAux (seg :: stack) rest

def resolvePath (segs : List String) : List String := normAux [] segs

inductive FsNode
  | dir
  | file (content : String)
deriving Repr, DecidableEq

/-- Filesystem as a map from resolved paths to nodes. -/
abbrev PathFS := List (List String × FsNode)

def fsLookup (fs : PathFS) (p : List String) : Option FsNode :=
  (fs.find? (fun e => e.1 == resolvePath p)).map (·.2)

/-- Embeds `os.path.exists`. -/
def path_exists (fs : PathFS) (p : List String) : Bool :=
  (fsLookup fs p).isSome

/-- `USERS_DIRECTORY = "./users"` as segments. -/
def USERS_DIRECTORY_SEGS : List String := splitPath "./users"

/-- The `project_dir` computed by every file route:
`os.path.join(USERS_DIRECTORY, username, "projects", project_name)`. -/
def route_project_dir (username project_name : String) : List String :=
  joinSeg (joinSeg (joinSeg USERS_DIRECTORY_SEGS username) "projects") project_name

/-- The `main_file` path computed by `get_file_content` / `delete_file`:
`os.path.join(project_dir, "main", file_name)`. -/
def route_main_file (username project_name file_name : String) : List String :=
  joinSeg (joinSeg (route_project_dir username project_name) "main") file_name

def route_temp_file (username project_name file_name : String) : List String :=
  joinSeg (joinSeg (route_project_dir username project_name) "temp") file_name

/-- Path-level embedding of `get_file_content`: exactly the route's
sequence of filesystem probes and the final read, with no validation of
`file_name` anywhere. -/
def get_file_content_route (fs : PathFS) (username project_name file_name : String) :
    Except HTTPError String :=
  if ¬ path_exists fs (route_project_dir username project_name) then
    .error ⟨404, "Project not found"⟩
  else if path_exists fs (route_main_file username project_name file_name) then
    match fsLookup fs (route_main_file username project_name file_name) with
    | some (.file c) => .ok c
    | _ => .error ⟨500, "Error reading file"⟩
  else if path_exists fs (route_temp_file username project_name file_name) then
    match fsLookup fs (route_temp_file username project_name file_name) with
    | some (.file c) => .ok c
    | _ => .error ⟨500, "Error reading file"⟩
  else
    .error ⟨404, "File not found"⟩

/-- The user's namespace root (`users/<username>`), the tree the claim
says every computed path must stay inside. -/
def namespaceRoot (username : String) : List String :=
  resolvePath (joinSeg USERS_DIRECTORY_SEGS username)

/-- The claim's confinement predicate: the resolved target path stays
under the user's namespace root. -/
def confined (username : String) (p : List String) : Bool :=
  (namespaceRoot username).isPrefixOf (resolvePath p)

/-! ### Spec-side predicates and concrete fixtures -/

/-- The spec's password rule, stated from its words: at least 8
characters with at least one lowercase letter, one uppercase letter, one
digit and one of `@$!%*?&` — with no restriction on the remaining
characters.  Kept separate from `validate_password` (the embedding of
the source regex) to compare the two. -/
def specPasswordRule (p : String) : Prop :=
  8 ≤ p.length
    ∧ (∃ c ∈ p.data, isLowerCh c = true)
    ∧ (∃ c ∈ p.data, isUpperCh c = true)
    ∧ (∃ c ∈ p.data, isDigitCh c = true)
    ∧ (∃ c ∈ p.data, isSpecialCh c = true)

/-- What one whole-line match of the password regex requires, in
propositional form, ordered as in `pwdBody`. -/
def pwdBodyProp (s : List Char) : Prop :=
  (∃ c ∈ s, isLowerCh c = true)
    ∧ (∃ c ∈ s, isUpperCh c = true)
    ∧ (∃ c ∈ s, isDigitCh c = true)
    ∧ (∃ c ∈ s, isSpecialCh c = true)
    ∧ (∀ c ∈ s, pwdAllowedCh c = true)
    ∧ 8 ≤ s.length

/-- Users store with one registered account, for the login-error
analysis. -/
def c5_db : UsersStore :=
  [("alice_dev1",
    ⟨"alice_dev1", get_password_hash "Str0ng!Pass", "K1", false,
      "2024-01-01T00:00:00+00:00", none⟩)]

/-- Users store with one disabled account. -/
def c5_disabled_db : UsersStore :=
  [("carol_dev1",
    ⟨"carol_dev1", get_password_hash "Str0ng!Pass", "K1", true,
      "2024-01-01T00:00:00+00:00", none⟩)]

/-- A well-signed, unexpired token for the disabled account. -/
def carolToken : Jwt := jwtEncode "s" ⟨some "carol_dev1", 100⟩

/-- A token whose signature does not match the server secret. -/
def badToken : Jwt := ⟨⟨some "ghost1", 100⟩, "tampered"⟩

/-- Path-level filesystem with two user namespaces, used to exercise the
traversal input: alice1 owns project `proj`, bob123 owns a secret file. -/
def attackFS : PathFS := [
  (["users"], .dir),
  (["users", "alice1"], .dir),
  (["users", "alice1", "projects"], .dir),
  (["users", "alice1", "projects", "proj"], .dir),
  (["users", "bob123"], .dir),
  (["users", "bob123", "projects", "proj", "main", "secret.txt"], .file "BOB-SECRET")
]

/-- A `file_name` request value whose `..` segments climb out of
alice1's namespace into bob123's. -/
def traversalFileName : String :=
  "../../../../bob123/projects/proj/main/secret.txt"

/-- A freshly created project, as `create_project` leaves it. -/
def freshProject : Project := ⟨some [], some [], some "2024-01-01T00:00:00"⟩

/-- Namespace with one fresh project, for the upload/move round trip. -/
def c6_fs : UserFS := [("thesis", freshProject)]

/-- A project holding a file named `draft.md` in both folders, with
different contents. -/
def c7_pr : Project :=
  ⟨some [("draft.md", "MAIN")], some [("draft.md", "TEMP")], some "2024-01-01T00:00:00"⟩

def c7_fs : UserFS := [("thesis", c7_pr)]

/-- A projects directory with a dated project, a project whose info file
is missing, and a stray plain file. -/
def c8_entries : List (String × DirEntry) :=
  [("alpha", .subdir (some "2024-05-01T00:00:00")),
   ("beta", .subdir none),
   ("stray.txt", .plainFile)]

/-! ### Helper lemmas about the association-list stores -/

theorem lookupProj_nil (p : String) : lookupProj ([] : UserFS) p = none := rfl

theorem lookupProj_cons (e : String × Project) (fs : UserFS) (p : String) :
    lookupProj (e :: fs) p = if e.1 == p then some e.2 else lookupProj fs p := by
  by_cases h : e.1 == p <;> simp [lookupProj, List.find?, h]

theorem lookupProj_setProj_self (fs : UserFS) (p : String) (pr pr' : Project)
    (h : lookupProj fs p = some pr) :
    lookupProj (setProj fs p pr') p = some pr' := by
  induction fs with
  | nil => simp [lookupProj] at h
  | cons e fs ih =>
    rw [lookupProj_cons] at h
    by_cases he : (e.1 == p) = true
    · have hs : setProj (e :: fs) p pr' = (p, pr') :: setProj fs p pr' := by
        simp only [setProj, List.map_cons]
        rw [if_pos he]
      rw [hs, lookupProj_cons]
      simp
    · have hs : setProj (e :: fs) p pr' = e :: setProj fs p pr' := by
        simp only [setProj, List.map_cons]
        rw [if_neg he]
      rw [if_neg he] at h
      rw [hs, lookupProj_cons, if_neg he]
      exact ih h

theorem lookupFile_setFile_self (l : List (String × String)) (f c : String) :
    lookupFile (setFile l f c) f = some c := by
  have hnone : (l.filter (fun e => e.1 != f)).find? (fun e => e.1 == f) = none := by
    rw [List.find?_eq_none]
    intro x hx
    have := (List.mem_filter.mp hx).2
    simpa using this
  simp [lookupFile, setFile, List.find?_append, hnone, List.find?]

theorem lookupFile_removeFile_self (l : List (String × String)) (f : String) :
    lookupFile (removeFile l f) f = none := by
  have hnone : (l.filter (fun e => e.1 != f)).find? (fun e => e.1 == f) = none := by
    rw [List.find?_eq_none]
    intro x hx
    have := (List.mem_filter.mp hx).2
    simpa using this
  simp [lookupFile, removeFile, hnone]

theorem not_mem_map_removeFile (l : List (String × String)) (f : String) :
    f ∉ (removeFile l f).map (·.1) := by
  intro hmem
  rcases List.mem_map.mp hmem with ⟨e, he, hfst⟩
  have := (List.mem_filter.mp he).2
  simp [hfst] at this

theorem mem_map_setFile (l : List (String × String)) (f c : String) :
    f ∈ (setFile l f c).map (·.1) := by
  refine List.mem_map.mpr ⟨(f, c), ?_, rfl⟩
  simp [setFile]

theorem not_mem_map_of_lookupFile_none (l : List (String × String)) (f : String)
    (h : lookupFile l f = none) : f ∉ l.map (·.1) := by
  intro hmem
  rcases List.mem_map.mp hmem with ⟨e, he, hfst⟩
  have hfind := Option.map_eq_none'.mp h
  have := List.find?_eq_none.mp hfind e he
  simp [hfst] at this

theorem rmtreeProj_fresh (fs : UserFS) (p : String) (pr : Project)
    (h : lookupProj fs p = none) :
    rmtreeProj ((p, pr) :: fs) p = fs := by
  have hall := List.find?_eq_none.mp (Option.map_eq_none'.mp h)
  simp only [rmtreeProj, List.filter_cons]
  rw [if_neg (by simp)]
  exact List.filter_eq_self.mpr (fun e he => by simpa using hall e he)

theorem rmtreeProj_id_of_fresh (fs : UserFS) (p : String)
    (h : lookupProj fs p = none) : rmtreeProj fs p = fs := by
  have hall := List.find?_eq_none.mp (Option.map_eq_none'.mp h)
  exact List.filter_eq_self.mpr (fun e he => by simpa using hall e he)

theorem jwtDecode_jwtEncode (secret : String) (p : JwtPayload) (t : Int) :
    jwtDecode secret t (jwtEncode secret p) =
      if p.exp < t then .error .expired else .ok p := by
  simp [jwtDecode, jwtEncode]

/-- C3: a token issued by `create_access_token` for user `u` with
lifetime `ttl` decodes back to exactly `u` at any time strictly before
the expiry instant `now + ttl`, and decoding fails (with the uniform
"Invalid token" error) at any time strictly after it. -/
theorem token_roundtrip_within_ttl (secret u : String) (ttl now t : Int) :
    (t < now + ttl →
      get_username_from_token secret t (create_access_token secret u now (some ttl)) = .ok u)
    ∧ (now + ttl < t →
      get_username_from_token secret t (create_access_token secret u now (some ttl)) =
        .error "Invalid token") := by
  constructor
  · intro h
    show get_username_from_token secret t (jwtEncode secret ⟨some u, now + ttl⟩) = .ok u
    unfold get_username_from_token
    rw [jwtDecode_jwtEncode, if_neg (lt_asymm h)]
  · intro h
    show get_username_from_token secret t (jwtEncode secret ⟨some u, now + ttl⟩) =
      .error "Invalid token"
    unfold get_username_from_token
    rw [jwtDecode_jwtEncode, if_pos h]

theorem token_roundtrip_within_ttl_witness :
    get_username_from_token "s" 5 (create_access_token "s" "alice_dev1" 0 (some 10)) =
      .ok "alice_dev1"
    ∧ get_username_from_token "s" 20 (create_access_token "s" "alice_dev1" 0 (some 10)) =
      .error "Invalid token" :=
  ⟨(token_roundtrip_within_ttl "s" "alice_dev1" 10 0 5).1 (by norm_num),
   (token_roundtrip_within_ttl "s" "alice_dev1" 10 0 20).2 (by norm_num)⟩

/-- C9 counterexample: the string "Aa1@aaaa#" satisfies every condition
the claim states (length 9, has a lowercase, an uppercase, a digit and
`@`), yet `validate_password` rejects it, because the regex additionally
confines every character to the class `[A-Za-z\d@$!%*?&]` and `#` is
outside it. -/
theorem password_rule_counterexample :
    specPasswordRule "Aa1@aaaa#" ∧ validate_password "Aa1@aaaa#" = false := by
  constructor
  · unfold specPasswordRule
    decide
  · rfl

/-- C9 amended: `validate_password` accepts exactly the strings that,
after allowing one trailing newline (Python's `$` anchor), consist
solely of characters from `[A-Za-z0-9@$!%*?&]`, have length at least 8,
and contain at least one lowercase letter, one uppercase letter, one
digit, and one of `@$!%*?&`. -/
theorem validate_password_characterization (p : String) :
    validate_password p = true ↔
      pwdBodyProp p.data
      ∨ (p.data.getLast? = some '\n' ∧ pwdBodyProp p.data.dropLast) := by
  unfold validate_password reDollarMatch pwdBody pwdBodyProp
  simp only [Bool.or_eq_true, Bool.and_eq_true, List.any_eq_true, List.all_eq_true,
    decide_eq_true_iff, beq_iff_eq, and_assoc]

/-- C2: `create_project` is all-or-nothing.  Whatever the failure
(invalid name, duplicate directory, or an OS error at any of the four
creation steps, with the partial tree rolled back by `rmtree`), the
namespace afterwards is exactly what it was before, so no new directory
for the project remains; on success the project directory holds exactly
the `main/` and `temp/` subdirectories alongside the project-info
record. -/
theorem create_project_all_or_nothing (fs : UserFS) (p ts : String) (failAt : Option CPStep) :
    (∀ e, (create_project fs p ts failAt).1 = .error e → (create_project fs p ts failAt).2 = fs)
    ∧ (∀ m, (create_project fs p ts failAt).1 = .ok m →
        lookupProj fs p = none
        ∧ (create_project fs p ts failAt).2 =
            (p, Project.mk (some []) (some []) (some ts)) :: fs) := by
  by_cases hv : validProjectName p = true
  · by_cases hex : (lookupProj fs p).isSome = true
    · constructor
      · intro e _
        simp [create_project, hv, hex]
      · intro m hm
        simp [create_project, hv, hex] at hm
    · have hnone : lookupProj fs p = none :=
        Option.not_isSome_iff_eq_none.mp (by simpa using hex)
      rcases failAt with _ | step
      · constructor
        · intro e he
          simp [create_project, hv, hex] at he
        · intro m _
          refine ⟨hnone, ?_⟩
          simp [create_project, hv, hex]
      · cases step <;>
        · constructor
          · intro e _
            simp [create_project, hv, hex, rmtreeProj_fresh _ _ _ hnone,
              rmtreeProj_id_of_fresh _ _ hnone]
          · intro m hm
            simp [create_project, hv, hex] at hm
  · constructor
    · intro e _
      simp [create_project, hv]
    · intro m hm
      simp [create_project, hv] at hm

theorem create_project_all_or_nothing_witness :
    (create_project [] "thesis" "T1" (some .mkTempDir)).2 = ([] : UserFS)
    ∧ (lookupProj ([] : UserFS) "thesis" = none
        ∧ (create_project [] "thesis" "T1" none).2 =
            ("thesis", Project.mk (some []) (some []) (some "T1")) :: ([] : UserFS)) :=
  ⟨(create_project_all_or_nothing [] "thesis" "T1" (some .mkTempDir)).1
      ⟨500, "Failed to create project"⟩ rfl,
   (create_project_all_or_nothing [] "thesis" "T1" none).2
      "Project created successfully with main and temp folders" rfl⟩

/-- C4 (violated by the code): registration can never succeed.  The
route awaits the synchronous `validate_gemini_api_key`, raising
`TypeError` on every request that reaches step 4, surfaced as a 500.  A
fresh, fully valid registration (valid username and password, a key the
probe accepts) answers 500 and creates nothing, and for every store and
every input the route never returns success and never mutates the
store — so the claimed succeed-once-then-Conflict behaviour is
unattainable. -/
theorem register_never_succeeds :
    register_new_user [] "alice_dev1" "Str0ng!Pass" "K1" true "T" =
      (.error ⟨500, "Internal Server Error"⟩, ([] : RegState))
    ∧ ∀ (st : RegState) (u pw key : String) (kv : Bool) (now : String),
        (register_new_user st u pw key kv now).1.isOk = false
        ∧ (register_new_user st u pw key kv now).2 = st := by
  refine ⟨rfl, ?_⟩
  intro st u pw key kv now
  by_cases h1 : validate_username u = true
  · by_cases h2 : (lookupAccount st u).isSome = true
    · simp [register_new_user, h1, h2, Except.isOk, Except.toBool]
    · by_cases h3 : validate_password pw = true
      · simp [register_new_user, h1, h2, h3, Except.isOk, Except.toBool]
      · simp [register_new_user, h1, h2, h3, Except.isOk, Except.toBool]
  · simp [register_new_user, h1, Except.isOk, Except.toBool]

/-- C5 counterexample: authentication failures are not surfaced
uniformly.  With the same store, a login for a nonexistent username
answers 401 "Username does not exist" while a wrong password for an
existing account answers 401 "Incorrect password" — two distinguishable
responses that reveal whether the account exists. -/
theorem login_error_reveals_account_existence :
    (login_for_access_token c5_db "s" 0 (fun _ => true) "bob_dev99" "Str0ng!Pass" "").1 =
      .error ⟨401, "Username does not exist"⟩
    ∧ (login_for_access_token c5_db "s" 0 (fun _ => true) "alice_dev1" "WrongPass1@" "").1 =
      .error ⟨401, "Incorrect password"⟩
    ∧ "Username does not exist" ≠ "Incorrect password" :=
  ⟨rfl, rfl, by decide⟩

/-- C5 amended: only the token path is uniform.  Every failure of
`get_current_user` (bad signature, expiry, missing subject, unknown
user) is the single 401 "Could not validate credentials" error; but the
login route reports a nonexistent username and a wrong password with
distinct detail strings, and a disabled account is rejected with 400
"Inactive user" rather than a 401. -/
theorem auth_error_taxonomy :
    (∀ db secret now token e,
        get_current_user db secret now token = .error e → e = credentials_exception)
    ∧ (∀ db secret now keyValid u pw nk,
        get_user db u = none →
        (login_for_access_token db secret now keyValid u pw nk).1 =
          .error ⟨401, "Username does not exist"⟩)
    ∧ (∀ db secret now keyValid u pw nk r,
        get_user db u = some r → verify_password pw r.hashed_password = false →
        (login_for_access_token db secret now keyValid u pw nk).1 =
          .error ⟨401, "Incorrect password"⟩)
    ∧ (∀ db secret now token u,
        get_current_user db secret now token = .ok u → u.disabled = true →
        get_current_active_user db secret now token = .error ⟨400, "Inactive user"⟩) := by
  refine ⟨?_, ?_, ?_, ?_⟩
  · intro db secret now token e he
    unfold get_current_user at he
    split at he
    · simp at he
      exact he.symm
    · split at he
      · simp at he
        exact he.symm
      · split at he
        · simp at he
          exact he.symm
        · simp at he
  · intro db secret now keyValid u pw nk h
    simp [login_for_access_token, h]
  · intro db secret now keyValid u pw nk r h hv
    simp [login_for_access_token, h, hv]
  · intro db secret now token u hu hd
    unfold get_current_active_user
    rw [hu]
    simp [hd]

theorem auth_error_taxonomy_witness :
    credentials_exception = credentials_exception
    ∧ (login_for_access_token [] "s" 0 (fun _ => true) "nobody" "x" "").1 =
        .error ⟨401, "Username does not exist"⟩
    ∧ (login_for_access_token c5_db "s" 0 (fun _ => true) "alice_dev1" "WrongPass1@" "").1 =
        .error ⟨401, "Incorrect password"⟩
    ∧ get_current_active_user c5_disabled_db "s" 0 carolToken =
        .error ⟨400, "Inactive user"⟩ :=
  ⟨auth_error_taxonomy.1 [] "s" 0 badToken credentials_exception rfl,
   auth_error_taxonomy.2.1 [] "s" 0 (fun _ => true) "nobody" "x" "" rfl,
   auth_error_taxonomy.2.2.1 c5_db "s" 0 (fun _ => true) "alice_dev1" "WrongPass1@" ""
     ⟨"alice_dev1", get_password_hash "Str0ng!Pass", "K1", false,
       "2024-01-01T00:00:00+00:00", none⟩ rfl rfl,
   auth_error_taxonomy.2.2.2 c5_disabled_db "s" 0 carolToken
     ⟨"carol_dev1", get_password_hash "Str0ng!Pass", "K1", true,
       "2024-01-01T00:00:00+00:00", none⟩ rfl rfl⟩

/-- C6: uploading `f` into an existing project whose `main/` does not
already hold `f` puts it in `temp/` — `list_files` then reports `f`
under temp and not under main — and after `move_file` the listing
reports `f` under main and absent from temp. -/
theorem upload_then_move_round_trip (fs : UserFS) (p f c : String) (pr : Project)
    (m : List (String × String))
    (hproj : lookupProj fs p = some pr) (hm : pr.main = some m)
    (hfresh : lookupFile m f = none) :
    ∃ mains temps mains2 temps2,
      list_files (upload_file fs p f c).2 p = .ok (mains, temps)
      ∧ f ∈ temps ∧ f ∉ mains
      ∧ (move_file (upload_file fs p f c).2 p f).1 = .ok "moved from temp to main folder"
      ∧ list_files (move_file (upload_file fs p f c).2 p f).2 p = .ok (mains2, temps2)
      ∧ f ∈ mains2 ∧ f ∉ temps2 := by
  have hup : (upload_file fs p f c).2 =
      setProj fs p { pr with temp := some (setFile (pr.temp.getD []) f c) } := by
    simp [upload_file, hproj]
  have hl1 : lookupProj (upload_file fs p f c).2 p =
      some { pr with temp := some (setFile (pr.temp.getD []) f c) } := by
    rw [hup]
    exact lookupProj_setProj_self fs p pr _ hproj
  have hlf1 : list_files (upload_file fs p f c).2 p =
      .ok ((pr.main.getD []).map (·.1), (setFile (pr.temp.getD []) f c).map (·.1)) := by
    simp [list_files, hl1]
  have hmv : move_file (upload_file fs p f c).2 p f =
      (.ok "moved from temp to main folder",
        setProj (upload_file fs p f c).2 p
          { pr with main := some (setFile m f c),
                    temp := some (removeFile (setFile (pr.temp.getD []) f c) f) }) := by
    simp [move_file, hl1, lookupFile_setFile_self, hm]
  have hl2 : lookupProj (move_file (upload_file fs p f c).2 p f).2 p =
      some { pr with main := some (setFile m f c),
                     temp := some (removeFile (setFile (pr.temp.getD []) f c) f) } := by
    rw [hmv]
    exact lookupProj_setProj_self _ p _ _ hl1
  have hlf2 : list_files (move_file (upload_file fs p f c).2 p f).2 p =
      .ok ((setFile m f c).map (·.1),
           (removeFile (setFile (pr.temp.getD []) f c) f).map (·.1)) := by
    simp [list_files, hl2]
  refine ⟨_, _, _, _, hlf1, mem_map_setFile _ _ _, ?_, by rw [hmv], hlf2,
    mem_map_setFile _ _ _, not_mem_map_removeFile _ _⟩
  have : pr.main.getD [] = m := by rw [hm]; rfl
  rw [this]
  exact not_mem_map_of_lookupFile_none m f hfresh

theorem upload_then_move_round_trip_witness :
    ∃ mains temps mains2 temps2,
      list_files (upload_file c6_fs "thesis" "draft.md" "# Hello").2 "thesis" =
        .ok (mains, temps)
      ∧ "draft.md" ∈ temps ∧ "draft.md" ∉ mains
      ∧ (move_file (upload_file c6_fs "thesis" "draft.md" "# Hello").2 "thesis" "draft.md").1 =
          .ok "moved from temp to main folder"
      ∧ list_files
          (move_file (upload_file c6_fs "thesis" "draft.md" "# Hello").2 "thesis" "draft.md").2
          "thesis" = .ok (mains2, temps2)
      ∧ "draft.md" ∈ mains2 ∧ "draft.md" ∉ temps2 :=
  upload_then_move_round_trip c6_fs "thesis" "draft.md" "# Hello" freshProject [] rfl rfl rfl

/-- C7: for an existing project, read and delete resolve the filename
main-first: when `main/` holds the file, read returns its content and
delete removes only the main copy, leaving `temp/` untouched; when only
`temp/` holds it, the temp copy is read or removed with `main/`
untouched; when neither holds it, both operations answer 404 and delete
leaves the namespace unchanged. -/
theorem read_delete_main_precedence (fs : UserFS) (p f : String) (pr : Project)
    (hproj : lookupProj fs p = some pr) :
    (∀ c, lookupFile (pr.main.getD []) f = some c →
      get_file_content fs p f = .ok c
      ∧ (delete_file fs p f).1 = .ok "deleted from main folder"
      ∧ ∃ pr2, lookupProj (delete_file fs p f).2 p = some pr2
          ∧ pr2.temp = pr.temp
          ∧ lookupFile (pr2.main.getD []) f = none)
    ∧ (lookupFile (pr.main.getD []) f = none →
       ∀ c, lookupFile (pr.temp.getD []) f = some c →
      get_file_content fs p f = .ok c
      ∧ (delete_file fs p f).1 = .ok "deleted from temp folder"
      ∧ ∃ pr2, lookupProj (delete_file fs p f).2 p = some pr2
          ∧ pr2.main = pr.main
          ∧ lookupFile (pr2.temp.getD []) f = none)
    ∧ (lookupFile (pr.main.getD []) f = none →
       lookupFile (pr.temp.getD []) f = none →
      get_file_content fs p f = .error ⟨404, "File not found"⟩
      ∧ delete_file fs p f = (.error ⟨404, "File not found"⟩, fs)) := by
  refine ⟨?_, ?_, ?_⟩
  · intro c hc
    have hdel : delete_file fs p f =
        (.ok "deleted from main folder",
          setProj fs p { pr with main := some (removeFile (pr.main.getD []) f) }) := by
      simp [delete_file, hproj, hc]
    refine ⟨by simp [get_file_content, hproj, hc], by rw [hdel],
      { pr with main := some (removeFile (pr.main.getD []) f) }, ?_, rfl,
      lookupFile_removeFile_self _ f⟩
    rw [hdel]
    exact lookupProj_setProj_self fs p pr _ hproj
  · intro hc0 c hc
    have hdel : delete_file fs p f =
        (.ok "deleted from temp folder",
          setProj fs p { pr with temp := some (removeFile (pr.temp.getD []) f) }) := by
      simp [delete_file, hproj, hc0, hc]
    refine ⟨by simp [get_file_content, hproj, hc0, hc], by rw [hdel],
      { pr with temp := some (removeFile (pr.temp.getD []) f) }, ?_, rfl,
      lookupFile_removeFile_self _ f⟩
    rw [hdel]
    exact lookupProj_setProj_self fs p pr _ hproj
  · intro hc0 ht0
    exact ⟨by simp [get_file_content, hproj, hc0, ht0],
           by simp [delete_file, hproj, hc0, ht0]⟩

theorem read_delete_main_precedence_witness :
    get_file_content c7_fs "thesis" "draft.md" = .ok "MAIN"
    ∧ (delete_file c7_fs "thesis" "draft.md").1 = .ok "deleted from main folder"
    ∧ ∃ pr2, lookupProj (delete_file c7_fs "thesis" "draft.md").2 "thesis" = some pr2
        ∧ pr2.temp = c7_pr.temp
        ∧ lookupFile (pr2.main.getD []) "draft.md" = none :=
  (read_delete_main_precedence c7_fs "thesis" "draft.md" c7_pr rfl).1 "MAIN" rfl

/-- C10: moving a filename that exists in `temp/` while `main/` already
holds a file of the same name succeeds, the main copy afterwards carries
the temp file's content (the previous main content is silently
replaced), and no copy remains in `temp/`. -/
theorem move_overwrites_main (fs : UserFS) (p f : String) (pr : Project)
    (m : List (String × String)) (tempC mainC : String)
    (hproj : lookupProj fs p = some pr) (hm : pr.main = some m)
    (htemp : lookupFile (pr.temp.getD []) f = some tempC)
    (_hmain : lookupFile m f = some mainC) :
    (move_file fs p f).1 = .ok "moved from temp to main folder"
    ∧ ∃ pr2, lookupProj (move_file fs p f).2 p = some pr2
        ∧ lookupFile (pr2.main.getD []) f = some tempC
        ∧ lookupFile (pr2.temp.getD []) f = none := by
  have hmv : move_file fs p f =
      (.ok "moved from temp to main folder",
        setProj fs p { pr with main := some (setFile m f tempC),
                               temp := some (removeFile (pr.temp.getD []) f) }) := by
    simp [move_file, hproj, htemp, hm]
  refine ⟨by rw [hmv],
    { pr with main := some (setFile m f tempC),
              temp := some (removeFile (pr.temp.getD []) f) },
    ?_, lookupFile_setFile_self m f tempC, lookupFile_removeFile_self _ f⟩
  rw [hmv]
  exact lookupProj_setProj_self fs p pr _ hproj

theorem move_overwrites_main_witness :
    (move_file c7_fs "thesis" "draft.md").1 = .ok "moved from temp to main folder"
    ∧ ∃ pr2, lookupProj (move_file c7_fs "thesis" "draft.md").2 "thesis" = some pr2
        ∧ lookupFile (pr2.main.getD []) "draft.md" = some "TEMP"
        ∧ lookupFile (pr2.temp.getD []) "draft.md" = none :=
  move_overwrites_main c7_fs "thesis" "draft.md" c7_pr [("draft.md", "MAIN")]
    "TEMP" "MAIN" rfl rfl rfl rfl

/-- C8: `list_projects` returns exactly one row per subdirectory of the
projects directory (a permutation of the rows the loop builds), sorted
by `created_at` descending, and a subdirectory with no info file
contributes a row with the empty timestamp instead of failing the
listing. -/
theorem list_projects_sorted_desc (entries : List (String × DirEntry)) :
    (list_projects entries).Perm (projectRows entries)
    ∧ (list_projects entries).Sorted createdAtDesc
    ∧ ∀ n, (n, DirEntry.subdir none) ∈ entries → (n, "") ∈ list_projects entries := by
  unfold list_projects
  refine ⟨List.perm_insertionSort _ _, List.sorted_insertionSort _ _, ?_⟩
  intro n hn
  have hrow : (n, "") ∈ projectRows entries :=
    List.mem_filterMap.mpr ⟨(n, .subdir none), hn, rfl⟩
  exact ((List.perm_insertionSort createdAtDesc (projectRows entries)).mem_iff).mpr hrow

theorem list_projects_sorted_desc_witness :
    ("beta", "") ∈ list_projects c8_entries :=
  (list_projects_sorted_desc c8_entries).2.2 "beta" (by decide)

/-- C1 (violated by the code): the file routes do not canonicalize or
reject traversal inputs.  With alice1 authenticated, the request
`GET /projects/proj/files/<traversalFileName>` computes a `main_file`
path that resolves outside alice1's namespace root and the route reads
and returns bob123's file instead of rejecting the input. -/
theorem path_traversal_not_rejected :
    get_file_content_route attackFS "alice1" "proj" traversalFileName = .ok "BOB-SECRET"
    ∧ confined "alice1" (route_main_file "alice1" "proj" traversalFileName) = false :=
  ⟨rfl, rfl⟩

end Server
